import Mathlib

/-
Shallow embedding of src/python_typing.py, an annotated typing catalog that
is executed top to bottom as a single script. Python floats in this module
only ever hold values that small-integer arithmetic produces exactly, so
they are embedded as rationals; machine-level floating point never matters
here. Functions that print are embedded as functions returning the list of
console lines they produce; statements that can raise are embedded in the
Except monad over PyExc.
-/

namespace PythonTyping

/-- Runtime exception value, identified by the name of its class. The
module only ever meets NotImplementedError, ValueError, AssertionError,
IndexError, TypeError, AttributeError and NameError. -/
structure PyExc where
  className : String
  deriving DecidableEq, Repr

/-- Python assert statement: raises AssertionError when the condition is
false, otherwise does nothing. -/
def assertStmt (condition : Bool) : Except PyExc Unit :=
  if condition then Except.ok () else Except.error ⟨"AssertionError"⟩

/-- Source lines 95-97: PaymentSystem.pay raises NotImplementedError. -/
def PaymentSystem.pay : Except PyExc Unit :=
  Except.error ⟨"NotImplementedError"⟩

/-- Source lines 100-102: DebitPaymentSystem.pay prints one line. -/
def DebitPaymentSystem.pay : List String :=
  ["You are paying with Debit"]

namespace Functions

/-- Source lines 132-133: the first module-level multiply (the name is
later rebound at line 694 to the closure version, embedded in namespace
Closures below). -/
def multiply (a b : ℚ) : ℚ := a * b

end Functions

/-- Python string repetition. Line 137 calls multiply with a str first
argument despite the float annotation; at runtime the body computes
a * b, which for a str and an int is repetition and does not fault. -/
def strTimes (s : String) (n : Nat) : String :=
  String.join (List.replicate n s)

/-- Source lines 143-144. -/
def hello_world : List String := ["Hello World"]

/-- Source lines 151-153: prints one line naming the class of the incoming
exception, then raises that exception. The Empty payload in the normal
branch embeds the NoReturn annotation: no normal return value exists. -/
def raise_exception (exception : PyExc) : List String × Except PyExc Empty :=
  ([exception.className ++ " was thrown!"], Except.error exception)

/-- Source lines 155-158: the try block calls raise_exception(ValueError())
and the handler catches Exception and passes, so only the console output
of the call survives and no exception escapes. -/
def module_try_section : Except PyExc (List String) :=
  match raise_exception ⟨"ValueError"⟩ with
  | (out, Except.error _) => Except.ok out
  | (_, Except.ok v) => v.elim

/-- Source lines 168-171. The speed field is annotated float but the module
constructs every instance with integer literals, which is what the
f-string of show_vehicle renders, so the runtime values are embedded as
integers. -/
structure Vehicle where
  speed : Int
  color : String
  deriving DecidableEq, Repr

/-- Source lines 174-176. -/
structure Truck extends Vehicle where
  tare : Int
  deriving DecidableEq, Repr

/-- Source lines 179-180. -/
def show_vehicle (vehicle : Vehicle) : List String :=
  ["This vehicle can go to " ++ toString vehicle.speed ++ " and is " ++ vehicle.color]

/-- Source lines 183-184. The body only reads speed and color, and line 192
passes a plain Vehicle (the call succeeds at runtime by duck typing), so
the embedding takes the Vehicle part. -/
def show_truck (truck : Vehicle) : List String :=
  ["This truck can go to " ++ toString truck.speed ++ " and is " ++ truck.color]

/-- Source line 187. -/
def new_vehicle : Vehicle := { speed := 140, color := "Blue" }

/-- Source line 188. -/
def new_truck : Truck := { speed := 90, color := "Red", tare := 10 }

/-- Runtime objects of the NewType section, tagged with their runtime
class so that the isinstance checks of lines 235 and 240 are observable
in the embedding. -/
inductive PyVal where
  | int : Int → PyVal
  | str : String → PyVal
  deriving DecidableEq, Repr

/-- Python isinstance(v, int) on these objects. -/
def isinstance_int : PyVal → Bool
  | PyVal.int _ => true
  | _ => false

/-- Python isinstance(v, str) on these objects. -/
def isinstance_str : PyVal → Bool
  | PyVal.str _ => true
  | _ => false

/-- Python + on these objects: int + int adds; other combinations raise
TypeError (never exercised by the module). -/
def pyAdd : PyVal → PyVal → Except PyExc PyVal
  | PyVal.int a, PyVal.int b => Except.ok (PyVal.int (a + b))
  | _, _ => Except.error ⟨"TypeError"⟩

/-- Python str() of these objects as an f-string renders them. -/
def pyValStr : PyVal → String
  | PyVal.int n => toString n
  | PyVal.str s => s

/-- Source line 230: UserID = NewType("UserID", int). At runtime the
NewType callable returns its argument unchanged: no wrapper object is
created, the result is the very int that was passed in. -/
def UserID (x : Int) : PyVal := PyVal.int x

/-- Source line 232. -/
def user_a : PyVal := UserID 156

/-- Source line 233. -/
def user_b : PyVal := UserID 654

/-- Source line 238. -/
def sum_of_ids : Except PyExc PyVal := pyAdd user_a user_b

/-- Source lines 243-244. -/
def is_user_valid (user_id : PyVal) : String :=
  "Welcome " ++ pyValStr user_id ++ "!"

/-- Source line 417: the class variable Car.petrol_price, initialized to
the integer literal 2 under a ClassVar float annotation. Module-level
class attributes are never reassigned anywhere in the module. -/
def Car.petrol_price : ℚ := 2

/-- Runtime Car instance: its attribute dictionary, which may hold an
instance-level petrol_price that shadows the class variable. -/
structure CarInst where
  petrol_price_inst : Option ℚ := none
  deriving DecidableEq, Repr

/-- Car(): a fresh instance whose attribute dictionary is empty. -/
def Car.new : CarInst := {}

/-- Attribute read instance.petrol_price: the instance dictionary is
consulted first and the class variable is the fallback. -/
def CarInst.get_petrol_price (self : CarInst) : ℚ :=
  self.petrol_price_inst.getD Car.petrol_price

/-- Source lines 419-420: self.petrol_price = value performs a store into
the instance dictionary, shadowing the class variable for this instance
only; the class attribute itself is not touched. -/
def CarInst.set_pretol_price (self : CarInst) (value : ℚ) : CarInst :=
  { self with petrol_price_inst := some value }

/-- Python assignment to a module-level name is an unconditional store:
the Final qualifier is erased at runtime, so the store always succeeds. -/
def assignGlobal {α : Type} (newValue : α) : Except PyExc α :=
  Except.ok newValue

/-- Source lines 335-336: origin is bound to (0.0, 0.0) under a Final
annotation and then reassigned to (1.5, 1.5); the section evaluates to
the value origin holds afterwards. -/
def exec_origin_section : Except PyExc (ℚ × ℚ) := do
  let origin ← assignGlobal ((0 : ℚ), (0 : ℚ))
  let origin ← assignGlobal ((3 / 2 : ℚ), (3 / 2 : ℚ))
  pure origin

/-- Runtime values flowing through the functions annotated
Union[float, List[float]] (sections 10, 12 and 14). -/
inductive NumOrList where
  | num : ℚ → NumOrList
  | list : List ℚ → NumOrList
  deriving DecidableEq, Repr

/-- Source lines 449-452: double. The body first tests
isinstance(number, list). -/
def double : NumOrList → NumOrList
  | NumOrList.list xs => NumOrList.list (xs.map fun x => x * 2)
  | NumOrList.num x => NumOrList.num (x * 2)

/-- Source lines 463-466: double_alternative, an identical body under the
alternative union syntax. -/
def double_alternative : NumOrList → NumOrList
  | NumOrList.list xs => NumOrList.list (xs.map fun x => x * 2)
  | NumOrList.num x => NumOrList.num (x * 2)

/-- Python str() of an Optional value as an f-string renders it: the None
object prints as the text None. -/
def pyOptStr : Option String → String
  | none => "None"
  | some s => s

/-- Source lines 477-480: if name is None print the No name line; there is
no else and no return, so the welcome line is printed afterwards in every
case. -/
def greetings (name : Option String) : List String :=
  (if name = none then ["No name"] else []) ++ ["Welcome " ++ pyOptStr name ++ "."]

/-- Source lines 494-497: greetings_alternative, an identical body under
the Optional spelling of the same union. -/
def greetings_alternative (name : Option String) : List String :=
  (if name = none then ["No name"] else []) ++ ["Welcome " ++ pyOptStr name ++ "."]

/-- Source lines 508-509. -/
def get_scores : NumOrList := NumOrList.list [9 / 2, 3 / 5]

/-- Python attribute call value.append(x) on a Union[float, List[float]]
value: a list grows by x, a float has no append attribute. At line 514 the
call is made on the unnarrowed union value; at runtime the value is a
list, so it succeeds. -/
def unionAppend : NumOrList → ℚ → Except PyExc NumOrList
  | NumOrList.list xs, x => Except.ok (NumOrList.list (xs ++ [x]))
  | NumOrList.num _, _ => Except.error ⟨"AttributeError"⟩

/-- Source lines 530-531: true when every element is a str. -/
def convertable_to_string (value : List PyVal) : Bool :=
  value.all fun x => isinstance_str x

/-- Source line 534. -/
def data : List PyVal :=
  [PyVal.str ("5"), PyVal.str ("8"), PyVal.str ("1"), PyVal.str ("0"), PyVal.str ("6")]

/-- Python sep.join(xs): concatenates str elements with the separator;
raises TypeError on a non-str element (not exercised: every element of
data is a str). -/
def strJoin (sep : String) (xs : List PyVal) : Except PyExc String :=
  if xs.all (fun x => isinstance_str x) then
    Except.ok (String.intercalate sep (xs.map pyValStr))
  else Except.error ⟨"TypeError"⟩

/-- Source lines 560-563: the single runtime implementation behind the two
overload stubs of triple. The body first tests isinstance(number, list). -/
def triple : NumOrList → NumOrList
  | NumOrList.list xs => NumOrList.list (xs.map fun x => x * 3)
  | NumOrList.num x => NumOrList.num (x * 3)

/-- Source lines 584-585. -/
def sum_all_elements (values : List ℚ) : ℚ := values.sum

/-- Source lines 595-596 and 611-612: both definitions of
sum_all_elements_2 have the body sum(values); the second rebinds the name
with a wider annotation only. -/
def sum_all_elements_2 (values : List ℚ) : ℚ := values.sum

/-- Python range(start, stop) as the list of values it yields. -/
def pyRange (start stop : Nat) : List Nat :=
  (List.range (stop - start)).map fun i => start + i

/-- Source lines 636-637: WebStreamingSystem.play prints one line (the
method is never called by the module). -/
def WebStreamingSystem.play : List String :=
  ["You are playing from the website"]

/-- Source lines 655-658. -/
def map_function (function : ℚ → ℚ) (elements : List ℚ) : List ℚ :=
  elements.map fun element => function element

/-- Source lines 661-662. -/
def double_def (x : ℚ) : ℚ := x * 2

/-- Source lines 665-667: a Doubler instance is callable; its call method
doubles. -/
def Doubler.call (value : ℚ) : ℚ := value * 2

/-- Source line 670. -/
def numbers : List ℚ := [3 / 2, 1 / 2, 7 / 2, 4]

/-- Source lines 682-683: sum(args) + sum(kwargs.values()). -/
def summation (args : List ℚ) (kwargs : List (String × ℚ)) : ℚ :=
  args.sum + (kwargs.map Prod.snd).sum

namespace Closures

/-- Source lines 694-698: multiply returns the inner helper, which
captures the enclosing x. This definition rebinds the module-level name
multiply (previously the line 132 version). -/
def multiply (x : ℚ) : ℚ → ℚ :=
  let helper : ℚ → ℚ := fun y => x * y
  helper

end Closures

/-- Source line 719: FloatStrUnion = Union[float, str]. -/
abbrev FloatStrUnion : Type := ℚ ⊕ String

/-- Python values[0]: the first element of the sequence, IndexError when
it is empty. Shared body of the four first-element functions, whose
source bodies are all literally return values[0]. -/
def seqGetZero {α : Type} (values : List α) : Except PyExc α :=
  match values with
  | [] => Except.error ⟨"IndexError"⟩
  | v :: _ => Except.ok v

/-- Source lines 722-723. -/
def first_union (values : List FloatStrUnion) : Except PyExc FloatStrUnion :=
  seqGetZero values

/-- Source lines 743-744: the unconstrained TypeVar is erased at runtime,
so the function is polymorphic over the element type. -/
def first_typevar {T : Type} (values : List T) : Except PyExc T :=
  seqGetZero values

/-- Source lines 761-762: the constrained TypeVar is likewise erased at
runtime. -/
def first_typevar_constrained {FloatOrString : Type} (values : List FloatOrString) :
    Except PyExc FloatOrString :=
  seqGetZero values

/-- Source lines 785-786: the bounded TypeVar is likewise erased at
runtime. -/
def first_typevar_bounded {BoundedFloat : Type} (values : List BoundedFloat) :
    Except PyExc BoundedFloat :=
  seqGetZero values

/-- Source lines 811-813: the abstract configuration base (no fields). -/
structure AbstractStreamingServiceConfig where
  deriving DecidableEq, Repr

/-- Source lines 819-822: the generic abstract service holding a config of
the bound type. -/
structure AbstractStreamingService (StreamConfig : Type) where
  config : StreamConfig

/-- Source lines 825-828: the mid-tier configuration with its declared
quality field defaulting to 720p. -/
structure WebCamStreamingServiceConfig extends AbstractStreamingServiceConfig where
  quality : String := "720p"
  deriving DecidableEq, Repr

/-- Source lines 831-834: the further subtype adding an fps field. -/
structure HighSpeedWebCamStreamingServiceConfig extends WebCamStreamingServiceConfig where
  fps : Int := 15000
  deriving DecidableEq, Repr

/-- Source lines 837-840: the concrete service over the mid-tier config. -/
structure WebCamStreamingService extends
    AbstractStreamingService WebCamStreamingServiceConfig

/-- Source lines 839-840: show_quality reads the quality field of the held
configuration. -/
def WebCamStreamingService.show_quality (self : WebCamStreamingService) : String :=
  self.config.quality

/-- Names the module imports from the typing library, collected from all
the typing-import statements of src/python_typing.py (lines 47, 149, 208,
228, 262, 331, 345, 384, 397, 413, 446, 490, 525, 547, 608, 625, 652,
717, 738). -/
def typingImportedNames : List String :=
  ["List", "Set", "Dict", "Tuple", "NoReturn", "TypeAlias", "NewType",
   "TypedDict", "Final", "final", "Literal", "Any", "ClassVar", "Union",
   "Optional", "TypeGuard", "overload", "Iterable", "Protocol", "Callable",
   "Sequence", "TypeVar"]

/-- Source line 820: the class statement evaluates its base-class
expression, which begins by looking up the name Generic among the module
globals and builtins. Generic is not a builtin, the module never defines
a name Generic, and it can only be bound by one of the typing imports, so
the lookup raises NameError when no import brought it in. -/
def evalGenericBase : Except PyExc Unit :=
  if typingImportedNames.contains ("Generic") then Except.ok ()
  else Except.error ⟨"NameError"⟩

/-- Top-level execution of src/python_typing.py under Python 3.10+
semantics (the module needs 3.10+ for lines 208, 460 and 525; on older
versions it stops even earlier, at line 208, with ImportError). Every
statement with a runtime effect that can print or raise is modelled in
source order; plain assignments, annotations, container mutations and
class or function definitions (lines 32-124, 200-220, 267-316, 350-374,
388-404, 433-439 and similar) always succeed at runtime with no output
and are omitted or kept as discarded let bindings. -/
def runModule : Except PyExc (List String) := do
  let out_pay := DebitPaymentSystem.pay
  let _ := Functions.multiply 4 4
  let _ := strTimes ("a") 4
  let out_try ← module_try_section
  let out_v1 := show_vehicle new_vehicle
  let out_v2 := show_vehicle new_truck.toVehicle
  let out_t1 := show_truck new_truck.toVehicle
  let out_t2 := show_truck new_vehicle
  assertStmt (isinstance_int user_a)
  let s1 ← pyAdd user_a user_b
  assertStmt (decide (s1 = PyVal.int (156 + 654)))
  let sum_ids ← sum_of_ids
  assertStmt (isinstance_int sum_ids)
  let _ := is_user_valid user_a
  let s2 ← pyAdd user_a user_b
  let _ := is_user_valid s2
  let _ := is_user_valid (PyVal.int 156)
  let new_car := Car.new
  assertStmt (decide (Car.petrol_price = 2))
  assertStmt (decide (new_car.get_petrol_price = 2))
  let new_car := new_car.set_pretol_price 5
  assertStmt (decide (Car.petrol_price = 2))
  assertStmt (decide (new_car.get_petrol_price = 5))
  let _ := double (NumOrList.num 4)
  let _ := double_alternative (NumOrList.num 4)
  let out_g1 := greetings (some ("Admin"))
  let out_g2 := greetings_alternative (some ("Admin"))
  let field ← unionAppend get_scores (31 / 5)
  let field ← match field with
    | NumOrList.list _ => unionAppend field (31 / 5)
    | _ => pure field
  let _joined ← strJoin (" ") data
  let _ ← if convertable_to_string data then strJoin (" ") data else pure ""
  let _ := triple (NumOrList.num 4)
  let _ := triple (NumOrList.list [4])
  let _ := sum_all_elements [1, 2, 3]
  let _ := sum_all_elements [1, 2, 3]
  let _ := sum_all_elements_2 [1, 2, 3]
  let _ := sum_all_elements_2 [1, 2, 3]
  let _ := sum_all_elements_2 ((pyRange 1 4).map fun n => (n : ℚ))
  let _ := map_function double_def numbers
  let _ := map_function (fun x => x * 2) numbers
  let _ := map_function Doubler.call numbers
  assertStmt (decide (summation [2] [(("x"), 4)] = 6))
  assertStmt (decide (Closures.multiply 2 3 = 6))
  let _ ← first_union [Sum.inl 1, Sum.inl 2, Sum.inl 3]
  let _ ← first_union [Sum.inl (3 / 2), Sum.inl (5 / 2), Sum.inl (7 / 2)]
  let _ ← first_union [Sum.inr ("1.5"), Sum.inr ("2.5"), Sum.inr ("3.5")]
  let _ ← first_union [Sum.inl (3 / 2), Sum.inr ("2.5")]
  let _ ← first_typevar [(1 : ℚ), 2, 3]
  let _ ← first_typevar [(3 / 2 : ℚ), 5 / 2, 7 / 2]
  let _ ← first_typevar [("1.5"), ("2.5"), ("3.5")]
  let _ ← first_typevar ([Sum.inl (3 / 2), Sum.inr ("2.5")] : List FloatStrUnion)
  let _ ← first_typevar_constrained [(1 : ℚ), 2, 3]
  let _ ← first_typevar_constrained [(3 / 2 : ℚ), 5 / 2, 7 / 2]
  let _ ← first_typevar_constrained [("1.5"), ("2.5"), ("3.5")]
  let _ ← first_typevar_constrained ([Sum.inl (3 / 2), Sum.inr ("2.5")] : List FloatStrUnion)
  let _ ← first_typevar_bounded [(1 : ℚ), 2, 3]
  let _ ← first_typevar_bounded [(3 / 2 : ℚ), 5 / 2, 7 / 2]
  let _ ← first_typevar_bounded [("1.5"), ("2.5"), ("3.5")]
  let _ ← first_typevar_bounded ([Sum.inl (3 / 2), Sum.inr ("2.5")] : List FloatStrUnion)
  evalGenericBase
  let _ := AbstractStreamingService.mk ({} : AbstractStreamingServiceConfig)
  let _ := WebCamStreamingService.mk ⟨({} : WebCamStreamingServiceConfig)⟩
  let _ := WebCamStreamingService.mk
    ⟨({} : HighSpeedWebCamStreamingServiceConfig).toWebCamStreamingServiceConfig⟩
  pure (out_pay ++ out_try ++ out_v1 ++ out_v2 ++ out_t1 ++ out_t2 ++ out_g1 ++ out_g2)

/-- Helper: the assert at line 686 compares summation(2, x=4) with 6. -/
theorem summation_two_x_four : summation [2] [(("x"), 4)] = 6 := by
  simp [summation]
  norm_num

/-- Helper: the assert at line 701 compares multiply(2)(3) with 6, where
multiply is the closure version bound at line 694. -/
theorem closures_multiply_two_three : Closures.multiply 2 3 = 6 := by
  norm_num [Closures.multiply]

/-- C1: the claim states that evaluating the whole annotated script from
top to bottom completes without any unhandled runtime fault. It does not:
the module reaches the class statement at line 820, whose base-class
expression names Generic, a name the module never imports or defines, and
the run stops there with an unhandled NameError. Every earlier statement
does succeed (all prints, asserts and the one handled exception behave as
the spec describes), so the fault is exactly the missing import of
Generic from the typing library. -/
theorem runModule_raises_nameError : runModule = Except.error ⟨"NameError"⟩ := by
  simp only [runModule, summation_two_x_four, closures_multiply_two_three]
  rfl

/-- C2: constructing WebCamStreamingService with a
WebCamStreamingServiceConfig or with the further subtype
HighSpeedWebCamStreamingServiceConfig both succeed, and show_quality
returns the configured quality string, which defaults to 720p; in
general show_quality returns exactly the quality field of the held
configuration. -/
theorem webcam_streaming_service_quality :
    (WebCamStreamingService.mk ⟨({} : WebCamStreamingServiceConfig)⟩).show_quality = "720p"
    ∧ (WebCamStreamingService.mk
        ⟨({} : HighSpeedWebCamStreamingServiceConfig).toWebCamStreamingServiceConfig⟩).show_quality
      = "720p"
    ∧ ∀ config : WebCamStreamingServiceConfig,
        (WebCamStreamingService.mk ⟨config⟩).show_quality = config.quality :=
  ⟨rfl, rfl, fun _ => rfl⟩

/-- C3: UserID(156) + UserID(654) is exactly 810, the wrapped value
UserID(156) passes the isinstance check against int, and so does the sum
(the NewType wrapper is runtime-transparent, so the sum is an ordinary
int object). -/
theorem userid_sum_isinstance :
    sum_of_ids = Except.ok (PyVal.int 810)
    ∧ isinstance_int user_a = true
    ∧ isinstance_int (PyVal.int 810) = true :=
  ⟨rfl, rfl, rfl⟩

/-- C4: two independently constructed Car instances (both Car.new, the
second left untouched as the other instance) read petrol_price = 2 before
any instance-level assignment; after one instance runs set_pretol_price(5)
it reads 5, while the other instance and the class attribute
Car.petrol_price still read 2. -/
theorem car_classvar_shadowing :
    CarInst.get_petrol_price Car.new = 2
    ∧ CarInst.get_petrol_price (CarInst.set_pretol_price Car.new 5) = 5
    ∧ CarInst.get_petrol_price Car.new = 2
    ∧ Car.petrol_price = 2 :=
  ⟨rfl, rfl, rfl, rfl⟩

/-- C5: raise_exception prints exactly one line naming the class of the
incoming exception and then raises that same exception (its normal-return
payload is Empty, so it never returns normally for any input); the
enclosing try block at lines 155-158 catches it and discards it, leaving
only the one console line. -/
theorem raise_exception_spec (exception : PyExc) :
    (raise_exception exception).1 = [exception.className ++ " was thrown!"]
    ∧ (raise_exception exception).2 = Except.error exception
    ∧ module_try_section = Except.ok ["ValueError was thrown!"] :=
  ⟨rfl, rfl, rfl⟩

/-- C6: triple on a single number returns that number multiplied by 3,
and triple on a list returns the list with every element multiplied by 3,
with the output length equal to the input length. -/
theorem triple_overload_spec (x : ℚ) (xs : List ℚ) :
    triple (NumOrList.num x) = NumOrList.num (x * 3)
    ∧ triple (NumOrList.list xs) = NumOrList.list (xs.map fun v => v * 3)
    ∧ (xs.map fun v => v * 3).length = xs.length := by
  refine ⟨rfl, rfl, ?_⟩
  simp

/-- C7: the runtime reassignment of origin (declared Final with initial
value (0.0, 0.0)) succeeds with no runtime fault, and afterwards origin
holds the new tuple (1.5, 1.5). -/
theorem origin_reassignment_succeeds :
    exec_origin_section = Except.ok ((3 / 2 : ℚ), (3 / 2 : ℚ)) := rfl

/-- C8: the closure returned by multiply captures the outer multiplier:
multiply(2)(3) is exactly 6, and multiply(x)(y) equals x * y for every
pair of numbers. -/
theorem closure_multiply_spec :
    Closures.multiply 2 3 = 6 ∧ ∀ x y : ℚ, Closures.multiply x y = x * y := by
  refine ⟨?_, fun x y => rfl⟩
  norm_num [Closures.multiply]

/-- C9: the four first-element functions execute identically at runtime:
on every non-empty sequence each returns the first element, and on every
sequence whatsoever all four agree, their differing generic-parameter
annotations being erased at runtime. -/
theorem first_functions_agree (values : List FloatStrUnion) (h : values ≠ []) :
    first_union values = Except.ok (values.head h)
    ∧ first_typevar values = Except.ok (values.head h)
    ∧ first_typevar_constrained values = Except.ok (values.head h)
    ∧ first_typevar_bounded values = Except.ok (values.head h)
    ∧ ∀ w : List FloatStrUnion,
        first_typevar w = first_union w
        ∧ first_typevar_constrained w = first_union w
        ∧ first_typevar_bounded w = first_union w := by
  cases values with
  | nil => exact absurd rfl h
  | cons v rest => exact ⟨rfl, rfl, rfl, rfl, fun w => ⟨rfl, rfl, rfl⟩⟩

/-- C9 witness: the non-emptiness hypothesis discharged on the concrete
call first_union([1, 2, 3]) from line 730 and its three siblings. -/
theorem first_functions_agree_witness :
    first_union ([Sum.inl 1, Sum.inl 2, Sum.inl 3] : List FloatStrUnion)
      = Except.ok (Sum.inl 1)
    ∧ first_typevar ([Sum.inl 1, Sum.inl 2, Sum.inl 3] : List FloatStrUnion)
      = Except.ok (Sum.inl 1)
    ∧ first_typevar_constrained ([Sum.inl 1, Sum.inl 2, Sum.inl 3] : List FloatStrUnion)
      = Except.ok (Sum.inl 1)
    ∧ first_typevar_bounded ([Sum.inl 1, Sum.inl 2, Sum.inl 3] : List FloatStrUnion)
      = Except.ok (Sum.inl 1) := by
  have h := first_functions_agree ([Sum.inl 1, Sum.inl 2, Sum.inl 3] : List FloatStrUnion)
    (List.cons_ne_nil _ _)
  exact ⟨h.1, h.2.1, h.2.2.1, h.2.2.2.1⟩

/-- C10: greetings and greetings_alternative do not return early on None:
on the None input both print the No name line and then the Welcome None.
line, and on every input the welcome line is the last line printed. -/
theorem greetings_always_welcome :
    greetings none = ["No name", "Welcome None."]
    ∧ greetings_alternative none = ["No name", "Welcome None."]
    ∧ (∀ name : Option String,
        (greetings name).getLast? = some ("Welcome " ++ pyOptStr name ++ "."))
    ∧ (∀ name : Option String,
        (greetings_alternative name).getLast? = some ("Welcome " ++ pyOptStr name ++ ".")) := by
  refine ⟨rfl, rfl, ?_, ?_⟩ <;> intro name <;> cases name <;> rfl

end PythonTyping
